import Mathlib

/-!
# Verification of the per-request telemetry middleware
# (src/middleware/performance-monitor.ts)

Shallow embedding of the `performanceMonitor` Express middleware:
correlation-id stamping, request-context extraction, the `res.json` /
`res.send` size-measurement overrides, and the `'finish'`-event finalize
handler, together with proofs of the spec's claims about them.

Strings that travel through the JavaScript runtime are modelled as lists
of Unicode code points (`List Nat`).  JavaScript's `String.prototype.length`
counts UTF-16 code units; `Buffer.byteLength` (default utf8) counts UTF-8
bytes.  Both are defined below over the code-point lists.
-/

namespace PerfMon

/-- Unicode code points of a Lean string literal (all literals used here are
ASCII, where code point = UTF-16 unit = UTF-8 byte). -/
def strCodes (s : String) : List Nat :=
  s.toList.map Char.toNat

/-- JavaScript `String.prototype.length`: number of UTF-16 code units.
A code point below 0x10000 is one unit, anything above is a surrogate pair. -/
def jsLength : List Nat → Nat
  | [] => 0
  | c :: rest => (if c < 0x10000 then 1 else 2) + jsLength rest

/-- UTF-8 byte count of a code-point list, as computed by Node's
`Buffer.byteLength(str)` with the default utf8 encoding. -/
def utf8Length : List Nat → Nat
  | [] => 0
  | c :: rest =>
    (if c < 0x80 then 1 else if c < 0x800 then 2
     else if c < 0x10000 then 3 else 4) + utf8Length rest

/-- Lowercase hexadecimal digit, as emitted by `JSON.stringify` escapes. -/
def hexDigitCode (n : Nat) : Nat :=
  if n < 10 then 48 + n else 87 + n

/-- Decimal digit codes of a natural number (JavaScript number-to-string for
non-negative integers). -/
def natDigits (n : Nat) : List Nat :=
  if h : n < 10 then [48 + n]
  else natDigits (n / 10) ++ [48 + n % 10]
termination_by n
decreasing_by
  exact Nat.div_lt_self (by omega) (by omega)

/-- Decimal representation of an integer (JavaScript number-to-string for
integer-valued numbers). -/
def intCodes (i : Int) : List Nat :=
  if i < 0 then 45 :: natDigits i.natAbs else natDigits i.natAbs

/-- JSON string escaping for one code point, per `JSON.stringify`:
quote and backslash get a backslash escape, control characters get their
two-character short escapes or a `\u00XX` escape, everything else is
emitted literally. -/
def escapeCode (c : Nat) : List Nat :=
  if c = 34 ∨ c = 92 then [92, c]
  else if c = 8 then [92, 98]
  else if c = 9 then [92, 116]
  else if c = 10 then [92, 110]
  else if c = 12 then [92, 102]
  else if c = 13 then [92, 114]
  else if c < 32 then [92, 117, 48, 48, hexDigitCode (c / 16), hexDigitCode (c % 16)]
  else [c]

/-- Escape every code point of a JSON string body. -/
def escapeCodes (s : List Nat) : List Nat :=
  (s.map escapeCode).flatten

/-- A quoted, escaped JSON string literal. -/
def quotedCodes (s : List Nat) : List Nat :=
  34 :: escapeCodes s ++ [34]

/-- JavaScript values as they reach `res.json` / `res.send`: the primitives,
strings as code-point lists, and structured objects as ordered field lists. -/
inductive JsValue where
  | vNull
  | vUndefined
  | vBool (b : Bool)
  | vNum (n : Int)
  | vStr (s : List Nat)
  | vObj (fields : List (String × JsValue))

/-- JavaScript truthiness: `null`, `undefined`, `false`, `0` and the empty
string are falsy; every object is truthy. -/
def truthy : JsValue → Bool
  | .vNull => false
  | .vUndefined => false
  | .vBool b => b
  | .vNum n => n != 0
  | .vStr s => !s.isEmpty
  | .vObj _ => true

/-- `typeof v === 'object'`: true for objects and — a JavaScript quirk —
for `null`. -/
def isObjectType : JsValue → Bool
  | .vObj _ => true
  | .vNull => true
  | _ => false

/-- Is the value `undefined`?  `JSON.stringify` drops such object fields. -/
def isUndef : JsValue → Bool
  | .vUndefined => true
  | _ => false

/-- JavaScript `String(v)` conversion, as code points. -/
def jsToString : JsValue → List Nat
  | .vNull => strCodes "null"
  | .vUndefined => strCodes "undefined"
  | .vBool true => strCodes "true"
  | .vBool false => strCodes "false"
  | .vNum n => intCodes n
  | .vStr s => s
  | .vObj _ => strCodes "[object Object]"

mutual

/-- `JSON.stringify` on a defined value, as code points.  (`vUndefined` is
handled by `stringifyJson` below; inside objects such fields are dropped by
`stringifyFields`, so this arm is unreachable and maps to the empty list.) -/
def stringifyVal : JsValue → List Nat
  | .vNull => strCodes "null"
  | .vUndefined => []
  | .vBool true => strCodes "true"
  | .vBool false => strCodes "false"
  | .vNum n => intCodes n
  | .vStr s => quotedCodes s
  | .vObj fields => 123 :: (List.intercalate [44] (stringifyFields fields)) ++ [125]

/-- Serialized `"key":value` strings of an object's fields, in order, with
`undefined`-valued fields dropped as `JSON.stringify` does. -/
def stringifyFields : List (String × JsValue) → List (List Nat)
  | [] => []
  | (k, v) :: rest =>
    if isUndef v then stringifyFields rest
    else (quotedCodes (strCodes k) ++ 58 :: stringifyVal v) :: stringifyFields rest

end

/-- `JSON.stringify(v)`: `none` models the cases where no string is produced
(`JSON.stringify(undefined)` returns `undefined`, so taking `.length` of the
result throws), `some codes` the produced JSON text. -/
def stringifyJson : JsValue → Option (List Nat)
  | .vUndefined => none
  | v => some (stringifyVal v)

/-! ## The size-measurement overrides (performance-monitor.ts lines 47–78)

The middleware closes over a mutable `responseSize` (initialised to `0`,
line 51) and replaces `res.json` and `res.send`.  Each override is embedded
as a state transformer on `responseSize` that also reports which
`response.size_bytes` attribute (if any) it attached to the span, whether
its `catch` branch logged an error, and the body it forwarded to the
original Express method. -/

/-- Initial value of the middleware's `responseSize` variable (line 51). -/
def initialResponseSize : Nat := 0

/-- Outcome of one call to an overridden send method. -/
structure SendResult where
  /-- `responseSize` after the call. -/
  size : Nat
  /-- The `response.size_bytes` value set on the span by this call, if any. -/
  attrSet : Option Nat
  /-- Whether the override's `catch` branch ran `console.error`. -/
  loggedErr : Bool
  /-- The body forwarded to the original Express method. -/
  sent : JsValue

/-- The `res.json` override (lines 54–64): `JSON.stringify` the body and
record the string's `.length` (UTF-16 code units).  If stringification
yields no string — so `.length` throws — the `catch` logs the error and the
original `res.json` is still called with the same body; `responseSize` is
left unchanged and no attribute is set. -/
def resJson (size : Nat) (body : JsValue) : SendResult :=
  match stringifyJson body with
  | some codes =>
    { size := jsLength codes
      attrSet := some (jsLength codes)
      loggedErr := false
      sent := body }
  | none =>
    { size := size, attrSet := none, loggedErr := true, sent := body }

/-- The `res.send` override (lines 67–78): only when the body is truthy and
`typeof body !== 'object'` is `Buffer.byteLength(String(body))` recorded and
the attribute set; otherwise the call measures nothing.  Either way the
original `res.send` receives the unchanged body. -/
def resSend (size : Nat) (body : JsValue) : SendResult :=
  if truthy body && !isObjectType body then
    let n := utf8Length (jsToString body)
    { size := n, attrSet := some n, loggedErr := false, sent := body }
  else
    { size := size, attrSet := none, loggedErr := false, sent := body }

/-- `responseSize` after a sequence of `res.json` calls, starting from the
initial `0` (models a handler invoking the structured send path repeatedly). -/
def runJsonSends (bodies : List JsValue) : Nat :=
  bodies.foldl (fun size b => (resJson size b).size) initialResponseSize

/-! ## Correlation Context Builder (performance-monitor.ts lines 17–31)

Header maps are partial functions from header name to value; `none` models
an absent header (JavaScript `undefined`). -/

/-- The fields of the Express request that the middleware reads or writes. -/
structure Request where
  headers : String → Option String
  method : String
  path : String

/-- JavaScript `h || fallback` on a possibly-undefined string header: absent
and empty-string values both yield the fallback. -/
def jsStringOr (v : Option String) (fallback : String) : String :=
  match v with
  | some s => if s = "" then fallback else s
  | none => fallback

/-- JavaScript `parseInt(s, 10)`: skip leading whitespace, accept an
optional sign, then read leading decimal digits; `none` models the `NaN`
result when no digit is found. -/
def jsParseInt (s : String) : Option Int :=
  let chars := s.toList.dropWhile (fun c => c = ' ' ∨ c = '\t' ∨ c = '\n' ∨ c = '\r')
  let signAndRest : Int × List Char :=
    match chars with
    | '-' :: rest => (-1, rest)
    | '+' :: rest => (1, rest)
    | rest => (1, rest)
  let digits := signAndRest.2.takeWhile Char.isDigit
  if digits.isEmpty then none
  else some (signAndRest.1 * Int.ofNat (digits.foldl (fun acc c => acc * 10 + (c.toNat - 48)) 0))

/-- Everything the middleware entry (lines 17–31) computes and mutates
before opening the span: the chosen correlation id, the business context,
the declared request size, the mutated request, and the response header map
(which the middleware never writes — source contains no `res.setHeader` /
`res.set` call). `requestSize = none` models `NaN` from `parseInt`. -/
structure MwResult where
  requestId : String
  userId : String
  tenantId : String
  requestSize : Option Int
  reqAfter : Request
  resHeadersAfter : String → Option String

/-- The middleware entry (lines 17–31): choose the correlation id with
`req.headers['x-request-id'] || uuidv4()` and write it back into
`req.headers`, default the business identifiers, and compute the request
size with `req.headers['content-length'] ? parseInt(...) : 0`.  `fresh`
stands for the `uuidv4()` result.  No response header is touched. -/
def runMiddlewareEntry (req : Request) (resHeaders : String → Option String)
    (fresh : String) : MwResult :=
  let rid := jsStringOr (req.headers "x-request-id") fresh
  { requestId := rid
    userId := jsStringOr (req.headers "x-user-id") "anonymous"
    tenantId := jsStringOr (req.headers "x-tenant-id") "unknown"
    requestSize :=
      match req.headers "content-length" with
      | none => some 0
      | some s => if s = "" then some 0 else jsParseInt s
    reqAfter := { req with
              headers := fun k =>
                if k = "x-request-id" then some rid else req.headers k }
    resHeadersAfter := resHeaders }

/-! ## Finalize handler (performance-monitor.ts lines 82–107)

`responseFinishHandler` performs a fixed sequence of telemetry operations —
two attribute sets, a conditional error-classification block, a log line,
and `span.end()` — with no `try`/`catch` around any of them.  The sequence
is embedded as a list of operations; a fault oracle `failsAt` says which
external call throws, and execution stops at (and propagates) the first
throwing operation, exactly as unprotected straight-line code does. -/

/-- Values attached to span attributes during finalize. -/
inductive AttrVal where
  | n (v : Nat)
  | s (v : String)
  | b (v : Bool)
deriving DecidableEq

/-- One telemetry operation performed by `responseFinishHandler`. -/
inductive FinOp where
  | setAttr (key : String) (val : AttrVal)
  | setStatusError (msg : String)
  | logCompletion
  | endSpan
deriving DecidableEq

/-- The operations of `responseFinishHandler`, in source order (lines
82–107): record status and response time; when `statusCode >= 400` set the
span status to ERROR with message `HTTP Error <status>` and attach
`error` / `error.type` (the type is `server_error` when `statusCode >= 500`
and `client_error` otherwise); then log completion and end the span. -/
def finishOps (status rt : Nat) : List FinOp :=
  [.setAttr "http.status_code" (.n status),
   .setAttr "http.response_time_ms" (.n rt)] ++
  (if 400 ≤ status then
    [.setStatusError ("HTTP Error " ++ toString status),
     .setAttr "error" (.b true),
     .setAttr "error.type"
       (.s (if 500 ≤ status then "server_error" else "client_error"))]
   else []) ++
  [.logCompletion, .endSpan]

/-- Run a list of operations under a fault oracle with no exception
handling: the first operation for which the oracle reports a throw aborts
the run and the exception propagates (result `.error op`). -/
def runOps (failsAt : FinOp → Bool) : List FinOp → Except FinOp Unit
  | [] => .ok ()
  | op :: rest => if failsAt op then .error op else runOps failsAt rest

/-- `responseFinishHandler` under a fault oracle: its body has no
`try`/`catch` (lines 82–107), so it is a bare `runOps` over `finishOps`. -/
def runFinishHandler (failsAt : FinOp → Bool) (status rt : Nat) : Except FinOp Unit :=
  runOps failsAt (finishOps status rt)

/-- Did the handler return normally (no exception escaped)? -/
def opsOk (e : Except FinOp Unit) : Bool :=
  match e with
  | .ok _ => true
  | .error _ => false

/-- The `error.type` attribute value attached by a fault-free run of the
finalize handler, if any. -/
def recordedErrorType (status rt : Nat) : Option String :=
  (finishOps status rt).findSome? fun op =>
    match op with
    | .setAttr k (.s v) => if k = "error.type" then some v else none
    | _ => none

/-- Whether the finalize handler marks the span as errored
(`span.setStatus` with `SpanStatusCode.ERROR`). -/
def spanMarkedError (status rt : Nat) : Bool :=
  (finishOps status rt).any fun op =>
    match op with
    | .setStatusError _ => true
    | _ => false

/-- Whether the finalize handler attaches any error attribute
(`error` or `error.type`) to the span. -/
def hasErrorAttr (status rt : Nat) : Bool :=
  (finishOps status rt).any fun op =>
    match op with
    | .setAttr k _ => k = "error" || k = "error.type"
    | _ => false

/-! ## Response lifecycle events (performance-monitor.ts line 110)

The middleware registers its finalize handler with
`res.on('finish', responseFinishHandler)` and registers no other lifecycle
listener.  A request's transport outcome is the list of lifecycle events the
response object emits; the handler runs once per emitted event it listens
on. -/

/-- The lifecycle events the middleware listens on: exactly `'finish'`
(line 110); in particular there is no `'close'` listener. -/
def lifecycleListeners : List String := ["finish"]

/-- How many times the finalize handler runs for a given emitted event
trace. -/
def finalizeRunCount (emitted : List String) : Nat :=
  (emitted.filter (fun e => lifecycleListeners.contains e)).length

/-- Event trace of a normally completed response: Node emits `'finish'`
when the response is fully flushed, then `'close'`. -/
def normalCompletionEvents : List String := ["finish", "close"]

/-- Modelled from the spec: an aborted connection produces a "close without
finish" signal — the response emits only `'close'`, never `'finish'`
(spec §5 Cancellation; this transport behaviour lives in Node's http
layer, outside src/). -/
def abortedConnectionEvents : List String := ["close"]

/-! ## Concrete fixtures for witnesses and counterexamples -/

/-- A header map with no headers at all. -/
def emptyHeaders : String → Option String := fun _ => none

/-- A header map carrying exactly one header. -/
def headersWith (k v : String) : String → Option String :=
  fun q => if q = k then some v else none

/-- A request carrying exactly one header. -/
def reqWith (k v : String) : Request :=
  { headers := headersWith k v, method := "GET", path := "/health" }

/-- A request with no headers. -/
def reqBare : Request :=
  { headers := emptyHeaders, method := "GET", path := "/health" }

/-! ## Helper lemmas -/

/-- The finalize handler runs once per `'finish'` event in the emitted
trace, because `'finish'` is the only lifecycle event it listens on. -/
theorem finalizeRunCount_eq_count (l : List String) :
    finalizeRunCount l = l.count "finish" := by
  induction l with
  | nil => rfl
  | cons a t ih =>
    by_cases ha : a = "finish" <;>
      simp [finalizeRunCount, lifecycleListeners, List.count_cons, ha,
        List.filter_cons] <;>
      simpa [finalizeRunCount, lifecycleListeners] using ih

/-- Straight-line execution of telemetry operations succeeds exactly when
no operation throws. -/
theorem runOps_ok_eq_all (failsAt : FinOp → Bool) (l : List FinOp) :
    opsOk (runOps failsAt l) = l.all (fun op => !failsAt op) := by
  induction l with
  | nil => rfl
  | cons op rest ih =>
    by_cases h : failsAt op = true
    · simp [runOps, opsOk, h]
    · have hstep : runOps failsAt (op :: rest) = runOps failsAt rest := by
        simp [runOps, h]
      rw [hstep, ih]
      simp [h]

/-- On ASCII code points, the UTF-16 unit count and the UTF-8 byte count
coincide. -/
theorem jsLength_eq_utf8Length_of_ascii (codes : List Nat)
    (h : ∀ c ∈ codes, c < 128) : jsLength codes = utf8Length codes := by
  induction codes with
  | nil => rfl
  | cons c rest ih =>
    have hc : c < 128 := h c (by simp)
    have hrest : ∀ x ∈ rest, x < 128 := fun x hx => h x (by simp [hx])
    have h1 : c < 0x10000 := by omega
    have h2 : c < 0x800 := by omega
    simp [jsLength, utf8Length, hc, h1, h2, ih hrest]

/-! ## Claim theorems -/

/-- Claim C1, counterexample: on an aborted connection — the transport
emits `'close'` without `'finish'` — the finalize handler runs zero times,
not exactly once, because the middleware registers only a `'finish'`
listener. -/
theorem c1_finalize_counterexample :
    finalizeRunCount abortedConnectionEvents = 0 ∧
    finalizeRunCount abortedConnectionEvents ≠ 1 := by
  decide

/-- Claim C1, amended: the finalize handler runs exactly once for every
request whose response emits the `'finish'` (fully-flushed) event exactly
once — this covers normal completion, error responses from thrown handlers,
and zero-body responses — but it does not run at all when the connection is
aborted before the response finishes, since no `'close'` listener is
registered. -/
theorem c1_finalize_once_on_finish (emitted : List String)
    (h : emitted.count "finish" = 1) : finalizeRunCount emitted = 1 := by
  rw [finalizeRunCount_eq_count]
  exact h

/-- Witness for C1's amended theorem at the normal-completion trace. -/
theorem c1_finalize_once_witness : finalizeRunCount normalCompletionEvents = 1 :=
  c1_finalize_once_on_finish normalCompletionEvents (by decide)

/-- Claim C2, counterexample: an exception thrown by the completion-log
call inside `responseFinishHandler` is not caught — the handler's body has
no `try`/`catch` — so it propagates out of the finalize path (and the span
is never ended on that run). -/
theorem c2_swallow_counterexample :
    runFinishHandler (fun op => op == .logCompletion) 200 5 =
      .error .logCompletion ∧
    opsOk (runFinishHandler (fun op => op == .logCompletion) 200 5) = false := by
  exact ⟨rfl, rfl⟩

/-- Claim C2, amended: the finalize handler contains no exception handling,
so it returns normally exactly when every one of its telemetry operations
(attribute sets, status set, logging, span end) succeeds; any single
failing operation aborts the handler and the exception propagates to the
transport's event emitter.  (Only the `res.json`/`res.send` measurement
overrides swallow their exceptions.) -/
theorem c2_finalize_propagates (failsAt : FinOp → Bool) (status rt : Nat) :
    opsOk (runFinishHandler failsAt status rt) =
      (finishOps status rt).all (fun op => !failsAt op) :=
  runOps_ok_eq_all failsAt (finishOps status rt)

/-- Claim C5: at finalize the terminal status code determines the error
classification — a status in [400,499] records `error.type = client_error`
and marks the span errored, a status ≥ 500 records `server_error` and marks
the span errored, and any other status attaches no error attribute and
leaves the span status untouched. -/
theorem c5_status_classification (status rt : Nat) :
    recordedErrorType status rt =
      (if 400 ≤ status ∧ status ≤ 499 then some "client_error"
       else if 500 ≤ status then some "server_error" else none) ∧
    spanMarkedError status rt = decide (400 ≤ status) ∧
    hasErrorAttr status rt = decide (400 ≤ status) := by
  by_cases h4 : 400 ≤ status
  · by_cases h5 : 500 ≤ status
    · have h49 : ¬status ≤ 499 := by omega
      simp [recordedErrorType, spanMarkedError, hasErrorAttr, finishOps,
        h4, h5, h49]
    · have h49 : status ≤ 499 := by omega
      simp [recordedErrorType, spanMarkedError, hasErrorAttr, finishOps,
        h4, h5, h49]
  · have h5 : ¬500 ≤ status := by omega
    have : ¬(400 ≤ status ∧ status ≤ 499) := by omega
    simp [recordedErrorType, spanMarkedError, hasErrorAttr, finishOps,
      h4, h5, this]

/-- Claim C3, counterexample: for an inbound request carrying the header
`x-request-id: abc-123` the middleware does reuse the id, but it writes no
response header at all (the source contains no `res.setHeader`/`res.set`
call), so the outbound response header map still lacks `x-request-id` and
the outbound-visible correlation header does not equal the inbound value. -/
theorem c3_outbound_header_counterexample :
    (runMiddlewareEntry (reqWith "x-request-id" "abc-123") emptyHeaders
      "u1").requestId = "abc-123" ∧
    (runMiddlewareEntry (reqWith "x-request-id" "abc-123") emptyHeaders
      "u1").resHeadersAfter "x-request-id" = none :=
  ⟨rfl, rfl⟩

/-- Claim C3, amended: a present, non-empty inbound `x-request-id` is
reused verbatim and an absent or empty one is replaced by the freshly
generated identifier (`uuidv4()`, non-empty), so the chosen id is always
non-empty; the id is written into the request's own header map — visible to
downstream handlers — while the response header map is left completely
untouched, so the caller cannot observe it there. -/
theorem c3_correlation_id_amended (req : Request)
    (resHeaders : String → Option String) (fresh : String) (hf : fresh ≠ "") :
    (∀ v, req.headers "x-request-id" = some v → v ≠ "" →
      (runMiddlewareEntry req resHeaders fresh).requestId = v) ∧
    (req.headers "x-request-id" = none ∨ req.headers "x-request-id" = some "" →
      (runMiddlewareEntry req resHeaders fresh).requestId = fresh) ∧
    (runMiddlewareEntry req resHeaders fresh).requestId ≠ "" ∧
    (runMiddlewareEntry req resHeaders fresh).reqAfter.headers "x-request-id" =
      some (runMiddlewareEntry req resHeaders fresh).requestId ∧
    (∀ k, (runMiddlewareEntry req resHeaders fresh).resHeadersAfter k = resHeaders k) := by
  refine ⟨?_, ?_, ?_, ?_, fun k => rfl⟩
  · intro v hv hne
    simp [runMiddlewareEntry, jsStringOr, hv, hne]
  · intro h
    rcases h with h | h <;> simp [runMiddlewareEntry, jsStringOr, h]
  · rcases hh : req.headers "x-request-id" with _ | s
    · simp [runMiddlewareEntry, jsStringOr, hh, hf]
    · by_cases hs : s = "" <;>
        simp [runMiddlewareEntry, jsStringOr, hh, hs, hf]
  · simp [runMiddlewareEntry]

/-- Witness for C3's amended theorem: a non-empty inbound id is reused. -/
theorem c3_correlation_id_witness :
    ("u1" : String) ≠ "" ∧
    (runMiddlewareEntry (reqWith "x-request-id" "abc-123") emptyHeaders
      "u1").requestId = "abc-123" := by
  have h := c3_correlation_id_amended (reqWith "x-request-id" "abc-123")
    emptyHeaders "u1" (by decide)
  exact ⟨by decide, h.1 "abc-123" (by decide) (by decide)⟩

/-- Claim C4, counterexample: (1) for the structured payload `{"a":"é"}`
(é = U+00E9) the serialized form is 10 UTF-8 bytes but the code records
`JSON.stringify(body).length` = 9 UTF-16 code units; (2) the raw scalar
payload `false` has byte length 5 yet the raw path records nothing, leaving
size 0, because `false` is falsy. -/
theorem c4_size_counterexample :
    (resJson initialResponseSize (.vObj [("a", .vStr [233])])).size = 9 ∧
    utf8Length ((stringifyJson (.vObj [("a", .vStr [233])])).getD []) = 10 ∧
    (resSend initialResponseSize (.vBool false)).size = 0 ∧
    utf8Length (jsToString (.vBool false)) = 5 := by
  decide

/-- Claim C4, amended: the structured path records the UTF-16 code-unit
length of the serialized form (equal to the byte count exactly when the
serialization is all-ASCII); the raw path records the UTF-8 byte length of
the stringified payload only when the payload is truthy and not an object,
and otherwise leaves the size unchanged; the size starts at 0 and stays 0
when no explicit body is measured. -/
theorem c4_size_amended (body : JsValue) (size : Nat) :
    (∀ codes, stringifyJson body = some codes →
      (resJson size body).size = jsLength codes) ∧
    (∀ codes, stringifyJson body = some codes → (∀ c ∈ codes, c < 128) →
      (resJson size body).size = utf8Length codes) ∧
    (truthy body = true → isObjectType body = false →
      (resSend size body).size = utf8Length (jsToString body)) ∧
    (truthy body = false ∨ isObjectType body = true →
      (resSend size body).size = size) ∧
    initialResponseSize = 0 := by
  refine ⟨?_, ?_, ?_, ?_, rfl⟩
  · intro codes hc
    simp [resJson, hc]
  · intro codes hc ha
    simp [resJson, hc, jsLength_eq_utf8Length_of_ascii codes ha]
  · intro ht ho
    simp [resSend, ht, ho]
  · intro h
    rcases h with h | h <;> simp [resSend, h]

/-- Witness for C4's amended theorem at the one-character string `"a"`. -/
theorem c4_size_witness :
    (resJson 0 (.vStr [97])).size = jsLength [34, 97, 34] ∧
    (resSend 0 (.vStr [97])).size = utf8Length (jsToString (.vStr [97])) := by
  have h := c4_size_amended (.vStr [97]) 0
  exact ⟨h.1 [34, 97, 34] (by decide), h.2.2.1 (by decide) (by decide)⟩

/-- Claim C6, counterexample: the first `res.json` call records size 4 for
`"ab"`, but a second call with `"abcd"` overwrites the recorded size to 6 —
the second invocation does change the recorded size, so first-write-wins
fails. -/
theorem c6_first_write_counterexample :
    (resJson initialResponseSize (.vStr [97, 98])).size = 4 ∧
    runJsonSends [.vStr [97, 98], .vStr [97, 98, 99, 100]] = 6 := by
  decide

/-- Claim C6, amended: the measurement path has last-write-wins semantics —
after two `res.json` calls the recorded size is exactly the second body's
measurement (never the sum of the two, so sizes are not double-counted, but
the first write is overwritten rather than preserved). -/
theorem c6_last_write_wins (b1 b2 : JsValue) (c1 c2 : List Nat)
    (h1 : stringifyJson b1 = some c1) (h2 : stringifyJson b2 = some c2) :
    runJsonSends [b1, b2] = jsLength c2 := by
  simp [runJsonSends, resJson, h1, h2]

/-- Witness for C6's amended theorem on two concrete string bodies. -/
theorem c6_last_write_wins_witness :
    runJsonSends [.vStr [97], .vStr [98, 99]] = jsLength [34, 98, 99, 34] :=
  c6_last_write_wins (.vStr [97]) (.vStr [98, 99]) [34, 97, 34]
    [34, 98, 99, 34] (by decide) (by decide)

/-- Claim C7: the `res.json` override always forwards the unchanged body to
the original send path, and when serialization produces no string (so the
size computation throws) the failure is swallowed by the `catch`, logged
once, the size is left unchanged and no attribute is set — the caller still
receives the handler's response. -/
theorem c7_serialization_failure_swallowed (size : Nat) (body : JsValue) :
    (resJson size body).sent = body ∧
    (stringifyJson body = none →
      (resJson size body).size = size ∧
      (resJson size body).attrSet = none ∧
      (resJson size body).loggedErr = true) := by
  constructor
  · cases h : stringifyJson body <;> simp [resJson, h]
  · intro h
    simp [resJson, h]

/-- Witness for C7 at `undefined`, whose stringification yields no string. -/
theorem c7_serialization_failure_witness :
    (resJson 3 .vUndefined).sent = .vUndefined ∧
    (resJson 3 .vUndefined).size = 3 := by
  have h := c7_serialization_failure_swallowed 3 .vUndefined
  exact ⟨h.1, (h.2 rfl).1⟩

/-- Claim C8, counterexample: with a malformed `content-length: -5` the
recorded request size is the negative integer −5, and with
`content-length: abc` it is `NaN` (modelled `none`) — not a non-negative
integer in either case. -/
theorem c8_request_size_counterexample :
    (runMiddlewareEntry (reqWith "content-length" "-5") emptyHeaders
      "u1").requestSize = some (-5) ∧
    (-5 : Int) < 0 ∧
    (runMiddlewareEntry (reqWith "content-length" "abc") emptyHeaders
      "u1").requestSize = none := by
  decide

/-- Claim C8, amended: the context builder always succeeds (it is a total
function); caller and tenant identifiers default to `anonymous` / `unknown`
when their headers are absent; the request size is 0 when `content-length`
is absent and otherwise is `parseInt` of the header value — which is a
non-negative integer only for well-formed non-negative values and can be
`NaN` or negative for malformed ones. -/
theorem c8_context_builder_amended (req : Request)
    (resHeaders : String → Option String) (fresh : String) :
    (req.headers "x-user-id" = none →
      (runMiddlewareEntry req resHeaders fresh).userId = "anonymous") ∧
    (req.headers "x-tenant-id" = none →
      (runMiddlewareEntry req resHeaders fresh).tenantId = "unknown") ∧
    (req.headers "content-length" = none →
      (runMiddlewareEntry req resHeaders fresh).requestSize = some 0) ∧
    (∀ s, req.headers "content-length" = some s → s ≠ "" →
      (runMiddlewareEntry req resHeaders fresh).requestSize = jsParseInt s) := by
  refine ⟨?_, ?_, ?_, ?_⟩
  · intro h
    simp [runMiddlewareEntry, jsStringOr, h]
  · intro h
    simp [runMiddlewareEntry, jsStringOr, h]
  · intro h
    simp [runMiddlewareEntry, h]
  · intro s hs hne
    simp [runMiddlewareEntry, hs, hne]

/-- Witness for C8's amended theorem on a header-less request. -/
theorem c8_context_builder_witness :
    (runMiddlewareEntry reqBare emptyHeaders "u1").userId = "anonymous" ∧
    (runMiddlewareEntry reqBare emptyHeaders "u1").tenantId = "unknown" ∧
    (runMiddlewareEntry reqBare emptyHeaders "u1").requestSize = some 0 := by
  have h := c8_context_builder_amended reqBare emptyHeaders "u1"
  exact ⟨h.1 rfl, h.2.1 rfl, h.2.2.1 rfl⟩

/-- Claim C9: the middleware writes the chosen correlation id into the
request's own header map under `x-request-id`, and modifies nothing else
about the request — every other header key, the method and the path are
unchanged. -/
theorem c9_request_mutation_frame (req : Request)
    (resHeaders : String → Option String) (fresh : String) :
    (runMiddlewareEntry req resHeaders fresh).reqAfter.headers "x-request-id" =
      some (runMiddlewareEntry req resHeaders fresh).requestId ∧
    (∀ k, k ≠ "x-request-id" →
      (runMiddlewareEntry req resHeaders fresh).reqAfter.headers k = req.headers k) ∧
    (runMiddlewareEntry req resHeaders fresh).reqAfter.method = req.method ∧
    (runMiddlewareEntry req resHeaders fresh).reqAfter.path = req.path := by
  refine ⟨?_, ?_, rfl, rfl⟩
  · simp [runMiddlewareEntry]
  · intro k hk
    simp [runMiddlewareEntry, hk]

/-- Witness for C9 on a header-less request, with the untouched key
`x-user-id`. -/
theorem c9_request_mutation_witness :
    (runMiddlewareEntry reqBare emptyHeaders "u1").reqAfter.headers "x-request-id" =
      some (runMiddlewareEntry reqBare emptyHeaders "u1").requestId ∧
    (runMiddlewareEntry reqBare emptyHeaders "u1").reqAfter.headers "x-user-id" =
      reqBare.headers "x-user-id" := by
  have h := c9_request_mutation_frame reqBare emptyHeaders "u1"
  exact ⟨h.1, h.2.1 "x-user-id" (by decide)⟩

/-- Claim C10: a falsy payload (`null`, `undefined`, `false`, `0`, the empty
string) or a structured object sent through the raw `res.send` path is not
measured — the recorded size is unchanged, no `response.size_bytes`
attribute is attached by that call, and the body is forwarded untouched. -/
theorem c10_send_no_measure (size : Nat) (body : JsValue)
    (h : truthy body = false ∨ isObjectType body = true) :
    (resSend size body).size = size ∧
    (resSend size body).attrSet = none ∧
    (resSend size body).sent = body := by
  rcases h with h | h <;> simp [resSend, h]

/-- Witness for C10 at the falsy scalar `0`. -/
theorem c10_send_no_measure_witness :
    (resSend 0 (.vNum 0)).size = 0 ∧
    (resSend 0 (.vNum 0)).attrSet = none ∧
    (resSend 0 (.vNum 0)).sent = .vNum 0 :=
  c10_send_no_measure 0 (.vNum 0) (Or.inl (by decide))

end PerfMon
